import Mathlib

/-!
Verification development for the GCP nested-groups event handler
(`src/main.py`).  The program receives a Pub/Sub audit-log event, decodes a
caller IP and a membership id, fetches Okta's published IP ranges, and — if
the configured policy approves — adds the member to a configured parent
group via the Cloud Identity API.

The embedding is a shallow one: the pure parts (`is_okta_ip`, the
range-flattening loop of `gather_okta_ip_ranges`) are translated directly;
the network-facing parts (base64/JSON envelope decoding, the HTTP fetch,
credential acquisition, the group lookup and the create-membership call)
are modelled by oracles recorded in an `Env` structure, with exception
outcomes modelled as `Except String`.  Raised Python exceptions become
`Except.error`; the handler's `try ... except` blocks become the
corresponding `match`es.  The handler `index` additionally returns the
trace of propagator invocations (the list of membership ids with which
`add_subgroup` was called), so that "propagation attempted" is observable.
-/

/-! ### IPv4 addresses and networks

Model of the fragment of Python's `ipaddress` module that the program
uses: `ip_address` parsing of dotted-quad IPv4 literals, `ip_network`
parsing of `a.b.c.d/p` CIDR strings (strict mode: host bits must be zero),
and the `ip in network` containment test.  IPv6 literals are outside the
modelled fragment (they parse to `none` here); every concrete address in
the repository's documentation and in these theorems is IPv4. -/

/-- Split a character list at every occurrence of the separator `c`
(Python `str.split(c)`): `splitChars` below packages it for strings. -/
def splitCharsAux (c : Char) : List Char → List Char → List (List Char)
  | [], acc => [acc.reverse]
  | x :: xs, acc =>
    if x = c then acc.reverse :: splitCharsAux c xs []
    else splitCharsAux c xs (x :: acc)

/-- Split a string at every occurrence of the separator `c`. -/
def splitChars (c : Char) (s : String) : List (List Char) :=
  splitCharsAux c s.data []

/-- The numeric value of a decimal digit character, `none` otherwise. -/
def digitVal (c : Char) : Option Nat :=
  if '0' ≤ c ∧ c ≤ '9' then some (c.toNat - '0'.toNat) else none

/-- Parse a nonempty all-digit character list as a decimal natural. -/
def parseDecAux : List Char → Nat → Option Nat
  | [], n => some n
  | c :: cs, n =>
    match digitVal c with
    | some d => parseDecAux cs (n * 10 + d)
    | none => none

/-- Parse a decimal natural from a character list; empty input fails. -/
def parseDec : List Char → Option Nat
  | [] => none
  | c :: cs => parseDecAux (c :: cs) 0

/-- Parse one decimal octet: nonempty, at most 3 digits, no leading zero
(as in modern Python `ipaddress`), value at most 255. -/
def parseOctet (l : List Char) : Option Nat :=
  if 3 < l.length then none
  else if 1 < l.length ∧ l.head? = some '0' then none
  else match parseDec l with
    | none => none
    | some n => if n ≤ 255 then some n else none

/-- Parse a dotted-quad IPv4 literal to its 32-bit numeric value.
Models `ipaddress.ip_address` on the IPv4 fragment; a string that is not a
valid IPv4 literal yields `none` (Python raises `ValueError`). -/
def parseIPv4 (s : String) : Option Nat :=
  match splitChars '.' s with
  | [a, b, c, d] =>
    match parseOctet a, parseOctet b, parseOctet c, parseOctet d with
    | some x, some y, some z, some w => some (((x * 256 + y) * 256 + z) * 256 + w)
    | _, _, _, _ => none
  | _ => none

/-- An IPv4 network: base address and mask length. -/
structure IPv4Net where
  addr : Nat
  plen : Nat
  deriving DecidableEq

/-- Parse a CIDR string as `ipaddress.ip_network` does (strict mode, the
default used by the program): either a bare address (mask length 32) or
`addr/plen` with `plen ≤ 32` and all host bits of `addr` zero.  Any
failure yields `none` (Python raises `ValueError`). -/
def ip_network (s : String) : Option IPv4Net :=
  match splitChars '/' s with
  | [a] =>
    match parseIPv4 (String.mk a) with
    | some x => some ⟨x, 32⟩
    | none => none
  | [a, p] =>
    match parseIPv4 (String.mk a), parseDec p with
    | some x, some n =>
      if n ≤ 32 ∧ x % 2 ^ (32 - n) = 0 then some ⟨x, n⟩ else none
    | _, _ => none
  | _ => none

/-- The `ip in network` test: the address agrees with the network base on
the first `plen` bits. -/
def netContains (n : IPv4Net) (a : Nat) : Bool :=
  a / 2 ^ (32 - n.plen) = n.addr / 2 ^ (32 - n.plen)

/-! ### The IP classifier `is_okta_ip` -/

/-- The loop body of `is_okta_ip`: iterate the range strings in order;
`ip_network range_str` raising `ValueError` (here: `none`) is caught by
the single `except ValueError` wrapping the whole loop, so a malformed
range entry aborts the scan with result `none` (Python's implicit `None`
return).  A containing match returns `some true`; exhausting the list
returns `some false`. -/
def scanRanges (a : Nat) : List String → Option Bool
  | [] => some false
  | r :: rest =>
    match ip_network r with
    | none => none
    | some n => if netContains n a then some true else scanRanges a rest

/-- `is_okta_ip(requesting_ip, okta_ip_ranges)` from `src/main.py`:
parse the target address; on `ValueError` the `except` clause logs and
falls off the end, returning Python `None` (here `none`).  Otherwise scan
the ranges. -/
def is_okta_ip (requesting_ip : String) (okta_ip_ranges : List String) : Option Bool :=
  match parseIPv4 requesting_ip with
  | none => none
  | some a => scanRanges a okta_ip_ranges

/-- Python truthiness of the classifier result as used in
`if is_okta_ip(...)`: `None` and `False` are falsy, `True` is truthy. -/
def truthy (o : Option Bool) : Bool :=
  o = some true

/-! ### The range fetcher `gather_okta_ip_ranges` -/

/-- A top-level entry of the fetched JSON document: an object, modelled as
an association list from field names to lists of CIDR strings (the only
field the program reads is `"ip_ranges"`, whose value is such a list). -/
abbrev Cell := List (String × List String)

/-- The fetched document: its top-level values (`data.values()`), in
source order. -/
abbrev Doc := List Cell

/-- Field access on a cell, modelling both the `"ip_ranges" in cell_data`
test and the `cell_data["ip_ranges"]` read (dictionary keys are unique,
so first-occurrence lookup is exact). -/
def getField : Cell → String → Option (List String)
  | [], _ => none
  | (k, v) :: rest, key => if k = key then some v else getField rest key

/-- The flattening loop of `gather_okta_ip_ranges`: for each top-level
entry, if it has the `"ip_ranges"` field, `extend` the accumulator with
its list; entries lacking the field are skipped. -/
def flattenLoop : Doc → List String → List String
  | [], acc => acc
  | cell :: rest, acc =>
    match getField cell "ip_ranges" with
    | some rs => flattenLoop rest (acc ++ rs)
    | none => flattenLoop rest acc

/-- Outcome of the HTTP fetch of the Okta ranges document: either a
`requests` exception (connection error or JSON decode error, both
`RequestException`s caught by the function) or a successfully parsed
document. -/
inductive FetchOutcome where
  | failed (msg : String)
  | fetched (doc : Doc)

/-- `gather_okta_ip_ranges()` from `src/main.py`, as a function of the
fetch outcome: on a `RequestException` it logs and returns the empty
list; otherwise it flattens the document's `ip_ranges` lists. -/
def gather_okta_ip_ranges : FetchOutcome → List String
  | .failed _ => []
  | .fetched doc => flattenLoop doc []

/-- The specification's reading of the fetcher (§4.1 of the spec): the
concatenation, in source order, of the `ip_ranges` lists of exactly those
top-level entries that carry the field.  Stated independently of the
source loop, for comparison with `gather_okta_ip_ranges`. -/
def spec_gather_okta_ip_ranges (doc : Doc) : List String :=
  (doc.filterMap (fun cell => getField cell "ip_ranges")).flatten

/-! ### The propagator `add_subgroup` and the handler `index` -/

/-- Oracles for one invocation: the envelope-decoder outcome (caller IP —
defaulted to `""` when absent — and membership id; `error` for any
base64/JSON/key failure), the ranges fetch outcome, the
`OKTA_GROUPS_ONLY` environment string, and the outcomes of the three
remote steps of `add_subgroup`: credential acquisition, the parent-group
lookup (returning `response.get("name")`), and the create-membership call
(`ok` meaning the call, response-field extraction and success log all
completed; `error` any exception in that `try` block). -/
structure Env where
  decode : Except String (String × String)
  fetch : FetchOutcome
  oktaGroupsOnly : String
  cred : Except String Unit
  lookup : Except String (Option String)
  create : Except String Unit

/-- `add_subgroup(membership_id)` from `src/main.py`.  Only the
create-membership call (and the parsing/logging of its response) sits
inside a `try ... except`; `get_credentials()` and the group lookup are
outside it, so their exceptions propagate to the caller.  The
`membership_id` argument only feeds the membership body of the create
call and does not affect the control flow. -/
def add_subgroup (env : Env) (membership_id : String) : Except String Unit :=
  match env.cred with
  | .error e => .error e
  | .ok _ =>
    match env.lookup with
    | .error e => .error e
    | .ok _groupName =>
      match env.create with
      | .ok _ => .ok ()
      | .error _ => .ok ()

/-- `index(cloud_event)` from `src/main.py`.  Returns the `(body, status)`
pair together with the trace of propagator invocations (membership ids
passed to `add_subgroup`).  The outer `try ... except Exception` catches
both decode failures and exceptions escaping `add_subgroup`, returning
status 500. -/
def index (env : Env) : (String × Nat) × List String :=
  match env.decode with
  | .error _ => (("Error processing cloud event", 500), [])
  | .ok (requesting_ip, membership_id) =>
    let okta_ip_ranges := gather_okta_ip_ranges env.fetch
    if okta_ip_ranges = [] then
      (("Could not retrieve Okta IP ranges", 500), [])
    else if env.oktaGroupsOnly = "True" then
      if requesting_ip ≠ "" then
        if truthy (is_okta_ip requesting_ip okta_ip_ranges) then
          match add_subgroup env membership_id with
          | .ok _ => (("Group Event Processed Successfully", 200), [membership_id])
          | .error _ => (("Error processing cloud event", 500), [membership_id])
        else
          (("Not an Okta IP", 200), [])
      else
        (("No Requesting IP Found", 200), [])
    else
      match add_subgroup env membership_id with
      | .ok _ => (("Group Event Processed Successfully", 200), [membership_id])
      | .error _ => (("Error processing cloud event", 500), [membership_id])

/-- The condition under which the handler reaches the propagation call
(the spec's `Approved` state), given a successfully decoded caller IP:
either the restriction flag is off, or the IP is nonempty and classified
trusted. -/
def approves (env : Env) (requesting_ip : String) : Prop :=
  env.oktaGroupsOnly ≠ "True" ∨
    (requesting_ip ≠ "" ∧
      truthy (is_okta_ip requesting_ip (gather_okta_ip_ranges env.fetch)) = true)

/-! ### Branch lemmas for `index` -/

lemma add_subgroup_cred_error (env : Env) (mid e : String) (h : env.cred = Except.error e) :
    add_subgroup env mid = Except.error e := by
  simp [add_subgroup, h]

lemma add_subgroup_lookup_error (env : Env) (mid e : String)
    (hc : env.cred = Except.ok ()) (h : env.lookup = Except.error e) :
    add_subgroup env mid = Except.error e := by
  simp [add_subgroup, hc, h]

lemma add_subgroup_ok (env : Env) (mid : String) (g : Option String)
    (hc : env.cred = Except.ok ()) (h : env.lookup = Except.ok g) :
    add_subgroup env mid = Except.ok () := by
  cases hcr : env.create <;> simp [add_subgroup, hc, h, hcr]

lemma index_decode_error (env : Env) (e : String) (h : env.decode = Except.error e) :
    index env = (("Error processing cloud event", 500), []) := by
  simp [index, h]

lemma index_empty_ranges (env : Env) (ip mid : String)
    (hdec : env.decode = Except.ok (ip, mid))
    (hr : gather_okta_ip_ranges env.fetch = []) :
    index env = (("Could not retrieve Okta IP ranges", 500), []) := by
  simp [index, hdec, hr]

lemma index_no_ip (env : Env) (mid : String)
    (hdec : env.decode = Except.ok ("", mid))
    (hr : gather_okta_ip_ranges env.fetch ≠ [])
    (hflag : env.oktaGroupsOnly = "True") :
    index env = (("No Requesting IP Found", 200), []) := by
  simp [index, hdec, hr, hflag]

lemma index_not_trusted (env : Env) (ip mid : String)
    (hdec : env.decode = Except.ok (ip, mid))
    (hr : gather_okta_ip_ranges env.fetch ≠ [])
    (hflag : env.oktaGroupsOnly = "True")
    (hip : ip ≠ "")
    (ht : truthy (is_okta_ip ip (gather_okta_ip_ranges env.fetch)) = false) :
    index env = (("Not an Okta IP", 200), []) := by
  simp [index, hdec, hr, hflag, hip, ht]

lemma index_approved (env : Env) (ip mid : String)
    (hdec : env.decode = Except.ok (ip, mid))
    (hr : gather_okta_ip_ranges env.fetch ≠ [])
    (happ : approves env ip) :
    index env =
      (match add_subgroup env mid with
        | .ok _ => (("Group Event Processed Successfully", 200), [mid])
        | .error _ => (("Error processing cloud event", 500), [mid])) := by
  rcases happ with hflag | ⟨hip, ht⟩
  · simp [index, hdec, hr, hflag]
  · simp [index, hdec, hr, hip, ht]

/-! ### Claim theorems -/

/-- C4: whenever the `OKTA_GROUPS_ONLY` restriction flag is off (any value
other than `"True"`), the handler invokes the propagator with the decoded
membership id regardless of the caller address — also when the address is
empty/absent — provided the event decoded and the fetched range list is
nonempty (the states in which the policy is evaluated at all). -/
theorem C4_flag_off_always_propagates (env : Env) (ip mid : String)
    (hdec : env.decode = Except.ok (ip, mid))
    (hflag : env.oktaGroupsOnly ≠ "True")
    (hr : gather_okta_ip_ranges env.fetch ≠ []) :
    (index env).2 = [mid] := by
  rw [index_approved env ip mid hdec hr (Or.inl hflag)]
  cases add_subgroup env mid <;> rfl

/-- Witness for C4 at a concrete environment with an empty caller
address. -/
theorem C4_flag_off_always_propagates_witness :
    (index
      { decode := Except.ok ("", "user@example.com"),
        fetch := .fetched [[("ip_ranges", ["146.112.162.0/24"])]],
        oktaGroupsOnly := "False",
        cred := Except.ok (),
        lookup := Except.ok (some "groups/parent"),
        create := Except.ok () }).2 = ["user@example.com"] :=
  C4_flag_off_always_propagates _ "" "user@example.com" rfl
    (by decide) (by decide)

/-- C5: for every successfully decoded event, an empty fetched range list
yields status 500 and an empty propagation trace, whatever the value of
the restriction flag. -/
theorem C5_empty_ranges_fail_no_propagation (env : Env) (ip mid : String)
    (hdec : env.decode = Except.ok (ip, mid))
    (hr : gather_okta_ip_ranges env.fetch = []) :
    index env = (("Could not retrieve Okta IP ranges", 500), []) :=
  index_empty_ranges env ip mid hdec hr

/-- Witness for C5, applied under both values of the restriction flag. -/
theorem C5_empty_ranges_fail_no_propagation_witness :
    index
      { decode := Except.ok ("8.8.8.8", "user@example.com"),
        fetch := .failed "connection error",
        oktaGroupsOnly := "True",
        cred := Except.ok (),
        lookup := Except.ok (some "groups/parent"),
        create := Except.ok () } = (("Could not retrieve Okta IP ranges", 500), []) ∧
    index
      { decode := Except.ok ("8.8.8.8", "user@example.com"),
        fetch := .failed "connection error",
        oktaGroupsOnly := "False",
        cred := Except.ok (),
        lookup := Except.ok (some "groups/parent"),
        create := Except.ok () } = (("Could not retrieve Okta IP ranges", 500), []) :=
  ⟨C5_empty_ranges_fail_no_propagation _ "8.8.8.8" "user@example.com" rfl rfl,
   C5_empty_ranges_fail_no_propagation _ "8.8.8.8" "user@example.com" rfl rfl⟩

/-- C7: with the restriction flag on and a nonempty caller address that
the classifier does not accept — `some false` for a valid address outside
every range, `none` for a malformed address (no exception escapes: the
classifier totalizes to `none`) — the handler propagates nothing and
returns success. -/
theorem C7_untrusted_ip_skipped (env : Env) (ip mid : String)
    (hdec : env.decode = Except.ok (ip, mid))
    (hr : gather_okta_ip_ranges env.fetch ≠ [])
    (hflag : env.oktaGroupsOnly = "True")
    (hip : ip ≠ "")
    (ht : is_okta_ip ip (gather_okta_ip_ranges env.fetch) = some false ∨
      is_okta_ip ip (gather_okta_ip_ranges env.fetch) = none) :
    index env = (("Not an Okta IP", 200), []) := by
  refine index_not_trusted env ip mid hdec hr hflag hip ?_
  rcases ht with h | h <;> simp [truthy, h]

/-- Witness for C7: a valid address outside the single listed range, and a
malformed address, both skipped with status 200. -/
theorem C7_untrusted_ip_skipped_witness :
    index
      { decode := Except.ok ("8.8.8.8", "user@example.com"),
        fetch := .fetched [[("ip_ranges", ["146.112.162.0/24"])]],
        oktaGroupsOnly := "True",
        cred := Except.ok (),
        lookup := Except.ok (some "groups/parent"),
        create := Except.ok () } = (("Not an Okta IP", 200), []) ∧
    index
      { decode := Except.ok ("999.9.9.9", "user@example.com"),
        fetch := .fetched [[("ip_ranges", ["146.112.162.0/24"])]],
        oktaGroupsOnly := "True",
        cred := Except.ok (),
        lookup := Except.ok (some "groups/parent"),
        create := Except.ok () } = (("Not an Okta IP", 200), []) :=
  ⟨C7_untrusted_ip_skipped _ "8.8.8.8" "user@example.com" rfl (by decide) rfl
      (by decide) (Or.inl (by decide)),
   C7_untrusted_ip_skipped _ "999.9.9.9" "user@example.com" rfl (by decide) rfl
      (by decide) (Or.inr (by decide))⟩

/-- C8: with the restriction flag on and an empty (or absent, hence
defaulted-to-empty) caller address, the handler propagates nothing and
returns success. -/
theorem C8_no_ip_skipped (env : Env) (mid : String)
    (hdec : env.decode = Except.ok ("", mid))
    (hr : gather_okta_ip_ranges env.fetch ≠ [])
    (hflag : env.oktaGroupsOnly = "True") :
    index env = (("No Requesting IP Found", 200), []) :=
  index_no_ip env mid hdec hr hflag

/-- Witness for C8 at a concrete environment. -/
theorem C8_no_ip_skipped_witness :
    index
      { decode := Except.ok ("", "user@example.com"),
        fetch := .fetched [[("ip_ranges", ["146.112.162.0/24"])]],
        oktaGroupsOnly := "True",
        cred := Except.ok (),
        lookup := Except.ok (some "groups/parent"),
        create := Except.ok () } = (("No Requesting IP Found", 200), []) :=
  C8_no_ip_skipped _ "user@example.com" rfl (by decide) rfl

lemma flattenLoop_append (doc : Doc) :
    ∀ acc : List String, flattenLoop doc acc = acc ++ flattenLoop doc [] := by
  induction doc with
  | nil => intro acc; simp [flattenLoop]
  | cons cell rest ih =>
    intro acc
    cases h : getField cell "ip_ranges" with
    | none =>
      simp only [flattenLoop, h]
      exact ih acc
    | some rs =>
      simp only [flattenLoop, h, List.nil_append]
      rw [ih (acc ++ rs), ih rs, List.append_assoc]

/-- C9: on a successfully fetched document, the flattening loop of
`gather_okta_ip_ranges` produces exactly the concatenation, in source
order, of the `ip_ranges` lists of those top-level entries that carry the
field, skipping entries that lack it — i.e. it agrees with the
specification-level description `spec_gather_okta_ip_ranges`. -/
theorem C9_gather_flattens_in_order (doc : Doc) :
    gather_okta_ip_ranges (.fetched doc) = spec_gather_okta_ip_ranges doc := by
  induction doc with
  | nil => rfl
  | cons cell rest ih =>
    simp only [gather_okta_ip_ranges] at ih ⊢
    cases h : getField cell "ip_ranges" with
    | none => simp [flattenLoop, spec_gather_okta_ip_ranges, h, ih,
        List.filterMap_cons]
    | some rs =>
      simp only [flattenLoop, h, List.nil_append]
      rw [flattenLoop_append rest rs, ih]
      simp [spec_gather_okta_ip_ranges, List.filterMap_cons, h]

/-- C10: an address string that does not parse as an IP literal makes
`is_okta_ip` return `none` — neither `some true` nor `some false` — and
the handler's truthiness test sends `none` down the same branch as
`some false`: no propagation, "Not an Okta IP", status 200. -/
theorem C10_invalid_ip_yields_none (a : String) (ranges : List String)
    (env : Env) (mid : String)
    (hbad : parseIPv4 a = none) :
    is_okta_ip a ranges = none ∧
    is_okta_ip a ranges ≠ some true ∧
    is_okta_ip a ranges ≠ some false ∧
    truthy (is_okta_ip a ranges) = truthy (some false) ∧
    (env.decode = Except.ok (a, mid) →
      gather_okta_ip_ranges env.fetch = ranges →
      ranges ≠ [] →
      env.oktaGroupsOnly = "True" →
      a ≠ "" →
      index env = (("Not an Okta IP", 200), [])) := by
  have hnone : is_okta_ip a ranges = none := by simp [is_okta_ip, hbad]
  refine ⟨hnone, by simp [hnone], by simp [hnone], by simp [hnone, truthy], ?_⟩
  intro hdec hfetch hr hflag hip
  refine index_not_trusted env a mid hdec (hfetch ▸ hr) hflag hip ?_
  rw [hfetch, hnone]
  rfl

/-- Witness for C10 at the unparseable address string "not-an-ip". -/
theorem C10_invalid_ip_yields_none_witness :
    is_okta_ip "not-an-ip" ["146.112.162.0/24"] = none ∧
    is_okta_ip "not-an-ip" ["146.112.162.0/24"] ≠ some true ∧
    is_okta_ip "not-an-ip" ["146.112.162.0/24"] ≠ some false ∧
    truthy (is_okta_ip "not-an-ip" ["146.112.162.0/24"]) = truthy (some false) ∧
    index
      { decode := Except.ok ("not-an-ip", "user@example.com"),
        fetch := .fetched [[("ip_ranges", ["146.112.162.0/24"])]],
        oktaGroupsOnly := "True",
        cred := Except.ok (),
        lookup := Except.ok (some "groups/parent"),
        create := Except.ok () } = (("Not an Okta IP", 200), []) := by
  have h := C10_invalid_ip_yields_none "not-an-ip" ["146.112.162.0/24"]
    { decode := Except.ok ("not-an-ip", "user@example.com"),
      fetch := .fetched [[("ip_ranges", ["146.112.162.0/24"])]],
      oktaGroupsOnly := "True",
      cred := Except.ok (),
      lookup := Except.ok (some "groups/parent"),
      create := Except.ok () } "user@example.com" (by decide)
  exact ⟨h.1, h.2.1, h.2.2.1, h.2.2.2.1,
    h.2.2.2.2 rfl rfl (by decide) rfl (by decide)⟩

/-- Concrete environment refuting C1: the event decodes, the ranges fetch
succeeds, the restriction flag is off (so the invocation reaches the
`Approved` state), and credential acquisition raises. -/
def envC1cx : Env :=
  { decode := Except.ok ("", "user@example.com"),
    fetch := .fetched [[("ip_ranges", ["146.112.162.0/24"])]],
    oktaGroupsOnly := "False",
    cred := Except.error "credential refresh failed",
    lookup := Except.ok (some "groups/parent"),
    create := Except.ok () }

/-- Counterexample to C1: an exception during credential acquisition is
NOT caught inside the propagator — `add_subgroup` re-raises it — and the
invocation, although it reached `Approved`, reports 500, not 200. -/
theorem C1_counterexample :
    add_subgroup envC1cx "user@example.com" =
      Except.error "credential refresh failed" ∧
    index envC1cx = (("Error processing cloud event", 500), ["user@example.com"]) ∧
    (index envC1cx).1.2 ≠ 200 := by
  refine ⟨rfl, rfl, by decide⟩

/-- C1 (amended): only the create-membership step is wrapped in
`try/except` inside the propagator, so a create failure is swallowed and
the invocation reaching `Approved` still reports 200; an exception during
credential acquisition or the parent-group lookup escapes the propagator,
is caught by the handler's top-level handler, and the invocation reports
500.  In every case the propagator is invoked exactly once with the
decoded membership id. -/
theorem C1_amended_propagator_error_handling (env : Env) (ip mid : String)
    (hdec : env.decode = Except.ok (ip, mid))
    (hr : gather_okta_ip_ranges env.fetch ≠ [])
    (happ : approves env ip) :
    (index env).2 = [mid] ∧
    (env.cred = Except.ok () → (∃ g, env.lookup = Except.ok g) →
      index env = (("Group Event Processed Successfully", 200), [mid])) ∧
    ((∃ e, env.cred = Except.error e) ∨ (∃ e, env.lookup = Except.error e) →
      index env = (("Error processing cloud event", 500), [mid])) := by
  have hidx := index_approved env ip mid hdec hr happ
  refine ⟨?_, ?_, ?_⟩
  · rw [hidx]; cases add_subgroup env mid <;> rfl
  · rintro hc ⟨g, hl⟩
    rw [hidx, add_subgroup_ok env mid g hc hl]
  · rintro (⟨e, hc⟩ | ⟨e, hl⟩)
    · rw [hidx, add_subgroup_cred_error env mid e hc]
    · cases hc : env.cred with
      | error e2 => rw [hidx, add_subgroup_cred_error env mid e2 hc]
      | ok u =>
        cases u
        rw [hidx, add_subgroup_lookup_error env mid e hc hl]

/-- Witness for the amended C1: a create-membership failure is swallowed
and the invocation still reports 200. -/
theorem C1_amended_propagator_error_handling_witness :
    index
      { decode := Except.ok ("", "user@example.com"),
        fetch := .fetched [[("ip_ranges", ["146.112.162.0/24"])]],
        oktaGroupsOnly := "False",
        cred := Except.ok (),
        lookup := Except.ok (some "groups/parent"),
        create := Except.error "create failed" } =
      (("Group Event Processed Successfully", 200), ["user@example.com"]) :=
  (C1_amended_propagator_error_handling _ "" "user@example.com" rfl
      (by decide) (Or.inl (by decide))).2.1 rfl ⟨some "groups/parent", rfl⟩

/-- Concrete environment refuting C2: the trusted-range fetch succeeds
(nonempty ranges), but the envelope decode fails. -/
def envC2cx : Env :=
  { decode := Except.error "invalid base64 payload",
    fetch := .fetched [[("ip_ranges", ["146.112.162.0/24"])]],
    oktaGroupsOnly := "True",
    cred := Except.ok (),
    lookup := Except.ok (some "groups/parent"),
    create := Except.ok () }

/-- Counterexample to C2: an envelope decode failure is caught by the
handler's top-level `except` and reported as 500 — not 200 — even though
the trusted-range fetch did not fail. -/
theorem C2_counterexample :
    gather_okta_ip_ranges envC2cx.fetch ≠ [] ∧
    index envC2cx = (("Error processing cloud event", 500), []) ∧
    (index envC2cx).1.2 ≠ 200 := by
  refine ⟨by decide, rfl, by decide⟩

/-- C2 (amended): the handler returns 500 exactly when the envelope
decode fails, or the fetched range list is empty, or the policy approves
propagation and the propagator re-raises (credential or lookup failure,
by `C1_amended_propagator_error_handling`); every other outcome returns
200. -/
theorem C2_amended_status_characterization (env : Env) :
    (index env).1.2 = 500 ↔
      (∃ e, env.decode = Except.error e) ∨
      (∃ ip mid, env.decode = Except.ok (ip, mid) ∧
        (gather_okta_ip_ranges env.fetch = [] ∨
          (approves env ip ∧ ∃ e, add_subgroup env mid = Except.error e))) := by
  cases hdec : env.decode with
  | error e =>
    rw [index_decode_error env e hdec]
    simp [hdec]
  | ok p =>
    obtain ⟨ip, mid⟩ := p
    by_cases hr : gather_okta_ip_ranges env.fetch = []
    · rw [index_empty_ranges env ip mid hdec hr]
      simp [hdec, hr]
    · by_cases happ : approves env ip
      · rw [index_approved env ip mid hdec hr happ]
        cases hs : add_subgroup env mid with
        | ok u => simp [hdec, hr, hs, happ]
        | error e2 =>
          exact iff_of_true rfl
            (Or.inr ⟨ip, mid, rfl, Or.inr ⟨happ, e2, hs⟩⟩)
      · have hflag : env.oktaGroupsOnly = "True" := by
          by_contra hf
          exact happ (Or.inl hf)
        by_cases hip : ip = ""
        · subst hip
          rw [index_no_ip env mid hdec hr hflag]
          simp [hdec, hr, happ]
        · have ht : truthy (is_okta_ip ip (gather_okta_ip_ranges env.fetch)) = false := by
            rcases Bool.eq_false_or_eq_true
              (truthy (is_okta_ip ip (gather_okta_ip_ranges env.fetch))) with h | h
            · exact absurd (Or.inr ⟨hip, h⟩) happ
            · exact h
          rw [index_not_trusted env ip mid hdec hr hflag hip ht]
          simp [hdec, hr, happ]

/-- Counterexample to C3: the target "10.0.0.1" is a valid address lying
inside the syntactically valid listed network "10.0.0.0/8", but the
malformed entry "notacidr" earlier in the list raises `ValueError` inside
the loop, the single `except` aborts the whole scan, and the classifier
returns `None` instead of `True`. -/
theorem C3_counterexample :
    parseIPv4 "10.0.0.1" = some 167772161 ∧
    ip_network "10.0.0.0/8" = some ⟨167772160, 8⟩ ∧
    netContains ⟨167772160, 8⟩ 167772161 = true ∧
    "10.0.0.0/8" ∈ ["notacidr", "10.0.0.0/8"] ∧
    ip_network "notacidr" = none ∧
    is_okta_ip "10.0.0.1" ["notacidr", "10.0.0.0/8"] = none ∧
    is_okta_ip "10.0.0.1" ["notacidr", "10.0.0.0/8"] ≠ some true := by
  decide

lemma scanRanges_valid_entries (a : Nat) :
    ∀ (pre : List String) (r : String) (post : List String) (n : IPv4Net),
      (∀ s ∈ pre, ∃ m, ip_network s = some m) →
      ip_network r = some n → netContains n a = true →
      scanRanges a (pre ++ r :: post) = some true := by
  intro pre
  induction pre with
  | nil =>
    intro r post n _ hr hm
    simp [scanRanges, hr, hm]
  | cons s rest ih =>
    intro r post n hpre hr hm
    obtain ⟨m, hms⟩ := hpre s (List.mem_cons_self s rest)
    by_cases hc : netContains m a = true
    · simp [scanRanges, hms, hc]
    · have hrec := ih r post n (fun t ht => hpre t (List.mem_cons_of_mem s ht)) hr hm
      simp [scanRanges, hms, hc, hrec]

/-- C3 (amended): a malformed range entry does abort the remaining scan
(see the counterexample), so the guarantee that holds of the code is
positional: if the target address is valid and a syntactically valid
matching network occurs in the list with only syntactically valid entries
before it, the classifier returns `True` — malformed entries at or after
the first match cannot affect the result, since the scan short-circuits
there. -/
theorem C3_amended_match_before_malformed (ip : String) (a : Nat)
    (pre post : List String) (r : String) (n : IPv4Net)
    (hip : parseIPv4 ip = some a)
    (hpre : ∀ s ∈ pre, ∃ m, ip_network s = some m)
    (hr : ip_network r = some n)
    (hm : netContains n a = true) :
    is_okta_ip ip (pre ++ r :: post) = some true := by
  simp only [is_okta_ip, hip]
  exact scanRanges_valid_entries a pre r post n hpre hr hm

/-- Witness for the amended C3: the matching valid range is preceded only
by a valid (non-matching) range, and a malformed entry after it does not
prevent the `True` result. -/
theorem C3_amended_match_before_malformed_witness :
    is_okta_ip "10.0.0.1" ["192.168.0.0/16", "10.0.0.0/8", "notacidr"] = some true :=
  C3_amended_match_before_malformed "10.0.0.1" 167772161
    ["192.168.0.0/16"] ["notacidr"] "10.0.0.0/8" ⟨167772160, 8⟩
    (by decide)
    (by
      intro s hs
      rw [List.mem_singleton] at hs
      subst hs
      exact ⟨⟨3232235520, 16⟩, by decide⟩)
    (by decide) (by decide)

/-- Concrete environment refuting C6: restriction on, trusted caller
address, but credential acquisition raises inside the propagator. -/
def envC6cx : Env :=
  { decode := Except.ok ("146.112.162.1", "user@example.com"),
    fetch := .fetched [[("ip_ranges", ["146.112.162.0/24"])]],
    oktaGroupsOnly := "True",
    cred := Except.error "credential refresh failed",
    lookup := Except.ok (some "groups/parent"),
    create := Except.ok () }

/-- Counterexample to C6: with the flag on and a trusted caller address
the propagator is invoked once with the decoded membership id, but a
credential failure escapes it and the invocation returns 500, not 200. -/
theorem C6_counterexample :
    is_okta_ip "146.112.162.1"
      (gather_okta_ip_ranges envC6cx.fetch) = some true ∧
    (index envC6cx).2 = ["user@example.com"] ∧
    (index envC6cx).1.2 = 500 ∧
    (index envC6cx).1.2 ≠ 200 := by
  decide

/-- C6 (amended): with the restriction flag on, a nonempty caller address
classified trusted makes the handler invoke the propagator exactly once
with the decoded membership id; the invocation returns 200 when the
propagator does not re-raise (in particular whatever the create-step
outcome), and 500 when a credential/lookup exception escapes it. -/
theorem C6_amended_trusted_ip_propagates (env : Env) (ip mid : String)
    (hdec : env.decode = Except.ok (ip, mid))
    (hr : gather_okta_ip_ranges env.fetch ≠ [])
    (hflag : env.oktaGroupsOnly = "True")
    (hip : ip ≠ "")
    (ht : is_okta_ip ip (gather_okta_ip_ranges env.fetch) = some true) :
    (index env).2 = [mid] ∧
    (add_subgroup env mid = Except.ok () →
      index env = (("Group Event Processed Successfully", 200), [mid])) ∧
    (∀ e, add_subgroup env mid = Except.error e →
      index env = (("Error processing cloud event", 500), [mid])) := by
  have hidx := index_approved env ip mid hdec hr
    (Or.inr ⟨hip, by simp [truthy, ht]⟩)
  refine ⟨?_, ?_, ?_⟩
  · rw [hidx]; cases add_subgroup env mid <;> rfl
  · intro hs; rw [hidx, hs]
  · intro e hs; rw [hidx, hs]

/-- Witness for the amended C6: trusted caller, all propagator steps
succeed, one propagation, status 200. -/
theorem C6_amended_trusted_ip_propagates_witness :
    index
      { decode := Except.ok ("146.112.162.1", "user@example.com"),
        fetch := .fetched [[("ip_ranges", ["146.112.162.0/24"])]],
        oktaGroupsOnly := "True",
        cred := Except.ok (),
        lookup := Except.ok (some "groups/parent"),
        create := Except.ok () } =
      (("Group Event Processed Successfully", 200), ["user@example.com"]) :=
  (C6_amended_trusted_ip_propagates _ "146.112.162.1" "user@example.com"
      rfl (by decide) rfl (by decide) (by decide)).2.1 rfl
